import Mathlib

/-!
Shallow embedding of the go-mqtt/mqtt client core: the packet encoders
(`newPub`, `newPubAck`, …), the 16-bit packet-identifier register
(`packetIDs.reserve` / `free`), the inbound dispatcher (`Client.inbound`),
the reader loop framing (`Client.readLoop`), the connect handshake
(`Client.connect`), `Client.Subscribe` and `Client.NewClient`.

Machine integers are modelled as `Nat` with explicit `% 256` / `% 65536`
where the Go `byte(...)` / `& 0xffff` truncations occur.  Byte strings are
`List Nat`.  The persistence `Storage` interface is modelled as a total
in-memory map `Nat → Option (List Nat)` whose `Persist` always succeeds
(the Go error path for a failing store is not exercised by any claim).
-/

/-- Packet type constants.  Modelled from the spec: the numeric control-packet
type constants (`connReq`, `connAck`, `pubReq`, …) are declared in a file of
the repository that is not under `src/`; the values are the standard
control-packet type numbers of the protocol, pinned by the wire examples
of the spec (a QoS-0 PUBLISH
header byte `0x30` forces `pubReq = 3`, scenario S5 forces `connAck = 2`,
`pingPacket = []byte{ping << 4, 0}` forces `ping = 12`, and so on). -/
def connReq : Nat := 1

def connAck : Nat := 2

def pubReq : Nat := 3

def pubAck : Nat := 4

def pubReceived : Nat := 5

def pubRelease : Nat := 6

def pubComplete : Nat := 7

def subReq : Nat := 8

def subAck : Nat := 9

def unsubReq : Nat := 10

def unsubAck : Nat := 11

def ping : Nat := 12

def pong : Nat := 13

def disconn : Nat := 14

/-- QoS levels, from the data model of the spec: AtMostOnce = 0, AtLeastOnce = 1,
ExactlyOnce = 2 (the Go `QoS` type is an integer type). -/
def AtMostOnce : Nat := 0

def AtLeastOnce : Nat := 1

def ExactlyOnce : Nat := 2

/-- Modelled from the spec: `localPacketIDFlag` (bit 16, distinguishing
local/outbound store keys from remote/inbound ones) is declared outside
`src/`; §4.3 fixes it as bit 16 of the 17-bit store key. -/
def localPacketIDFlag : Nat := 65536

/-- The `packet.addString`/`packet.addBytes` length prefix plus payload:
a 16-bit big-endian byte count followed by the bytes
(`byte(len(s)>>8), byte(len(s))`, then `s...`). -/
def addLenPrefixed (b : List Nat) : List Nat :=
  ((b.length >>> 8) % 256) :: (b.length % 256) :: b

/-- `newPubAck` from the packet file: `[]byte{pubAck<<4, 2, byte(id>>8), byte(id)}`. -/
def pubAckBytes (id : Nat) : List Nat :=
  [pubAck <<< 4, 2, (id >>> 8) % 256, id % 256]

/-- `newPubReceived`: `[]byte{pubReceived<<4, 2, byte(id>>8), byte(id)}`. -/
def pubReceivedBytes (id : Nat) : List Nat :=
  [pubReceived <<< 4, 2, (id >>> 8) % 256, id % 256]

/-- `newPubRelease`: `[]byte{pubRelease<<4, 2, byte(id>>8), byte(id)}`. -/
def pubReleaseBytes (id : Nat) : List Nat :=
  [pubRelease <<< 4, 2, (id >>> 8) % 256, id % 256]

/-- `newPubComplete`: `[]byte{pubComplete<<4, 2, byte(id>>8), byte(id)}`. -/
def pubCompleteBytes (id : Nat) : List Nat :=
  [pubComplete <<< 4, 2, (id >>> 8) % 256, id % 256]

/-- The remaining-length emission loop of `newPub`/`newConnReq`/`newSubReq`/
`newUnsubReq`:

  for size > 127 { p.buf = append(p.buf, byte(size|128)); size >>= 7 }

It returns the buffer with the continuation bytes appended together with the
final (shifted-down) value of `size`.  `byte(size|128)` is `(size % 256) ||| 128`,
whose low seven bits are `size % 128` and whose high bit is set. -/
def sizeLoop (buf : List Nat) (size : Nat) : List Nat × Nat :=
  if h : 127 < size then sizeLoop (buf ++ [(size ||| 128) % 256]) (size >>> 7)
  else (buf, size)
termination_by size
decreasing_by
  simp only [Nat.shiftRight_eq_div_pow]
  omega

/-- `newPub(id, topic, message, deliver)` from the packet file, translated
byte-for-byte.  Note the statement

  p.buf = append(p.buf[:0], byte(size))

after the `sizeLoop` above: the `p.buf[:0]` re-slices the buffer to length
zero, so the fixed-header byte and any continuation bytes built so far are
discarded and the buffer restarts holding only `byte(size)`.  The model keeps
`(sizeLoop …).2` (the shifted `size`) and drops `(sizeLoop …).1` exactly as
the source does. -/
def newPub (id : Nat) (topic : List Nat) (message : List Nat) (deliver : Nat) :
    List Nat :=
  let size0 := message.length + (if deliver ≠ AtMostOnce then 2 else 0)
      + (2 + topic.length)
  let header := ((pubReq <<< 4) ||| ((deliver % 256) <<< 1)) % 256
  let size1 := (sizeLoop [header] size0).2
  let buf0 := [size1 % 256]
  let buf1 := buf0 ++ addLenPrefixed topic
  let buf2 := if deliver ≠ AtMostOnce then buf1 ++ [(id >>> 8) % 256, id % 256]
      else buf1
  buf2 ++ message

/-- The packet-identifier register (`packetIDs`): a cyclic cursor `last`,
the set `inUse` of reserved identifiers, and the configured `limit`
(`inUse` models the Go `map[uint]struct{}`). -/
structure PidState where
  last : Nat
  inUse : Finset Nat
  limit : Nat
deriving DecidableEq

inductive RegErr where
  /-- `ErrRequestLimit`: returned when `len(inUse) >= limit`. -/
  | requestLimit : RegErr
  /-- Marker for the state in which the Go scan loop would spin forever
  (a full 65536-probe cycle found every identifier in use).  The theorems
  show this is unreachable whenever `len(inUse) < limit ≤ 65536`. -/
  | scanStuck : RegErr
deriving DecidableEq

/-- The scan of `packetIDs.reserve`:

  id := pids.last
  for { id = (id + 1) & 0xffff; if _, ok := pids.inUse[id]; !ok { … return id } }

Each probe computes `(id+1) % 65536` (`& 0xffff`) and stops at the first
identifier not in `inUse`.  The Go loop is unbounded; the model allows
`fuel + 1` probes and `reserve` passes `fuel = 65535`, one full cycle. -/
def scanLoop (inUse : Finset Nat) (fuel id : Nat) : Option Nat :=
  let idN := (id + 1) % 65536
  if idN ∈ inUse then
    match fuel with
    | 0 => none
    | f + 1 => scanLoop inUse f idN
  else some idN

/-- `packetIDs.reserve`: fails with the request-limit error when
`len(inUse) >= limit`, otherwise scans cyclically from `last + 1` for the
first unused identifier, inserts it, updates `last` and returns it. -/
def reserve (s : PidState) : Except RegErr (Nat × PidState) :=
  if s.limit ≤ s.inUse.card then .error .requestLimit
  else
    match scanLoop s.inUse 65535 s.last with
    | some id => .ok (id, ⟨id, insert id s.inUse, s.limit⟩)
    | none => .error .scanStuck

/-- `packetIDs.free`: removes the identifier from `inUse`. -/
def pidFree (id : Nat) (s : PidState) : PidState :=
  ⟨s.last, s.inUse.erase id, s.limit⟩

/-- The limit clamp of `NewClient`:

  const requestMax = 0x10000
  if c.packetIDs.limit < 1 || c.packetIDs.limit > requestMax { c.packetIDs.limit = requestMax }

`RequestLimit` is a Go `int`, modelled as `Int`. -/
def clampLimit (l : Int) : Nat :=
  if l < 1 ∨ 65536 < l then 65536 else l.toNat

/-- The register as initialised by `NewClient`:
`inUse: make(map[uint]struct{})`, `last` zero, limit clamped. -/
def pidsInit (limit : Nat) : PidState :=
  ⟨0, ∅, limit⟩

/-- Register states reachable from a `NewClient` initialisation by any
sequence of (successful) `reserve` and `free` calls. -/
inductive Reach : PidState → Prop where
  | init (l : Int) : Reach (pidsInit (clampLimit l))
  | stepReserve {s : PidState} {id : Nat} {s1 : PidState} :
      Reach s → reserve s = .ok (id, s1) → Reach s1
  | stepFree {s : PidState} (id : Nat) : Reach s → Reach (pidFree id s)

/-- The persistence `Storage` interface, modelled as an in-memory map.
`Persist` always succeeds (malfunction paths are not exercised); the Go
`Persist(id, nil)` stores the empty byte string. -/
def Store : Type := Nat → Option (List Nat)

def emptyStore : Store := fun _ => none

/-- `Storage.Persist(key, value)`. -/
def persist (s : Store) (k : Nat) (v : List Nat) : Store :=
  fun q => if q = k then some v else s q

/-- `Storage.Delete(key)`. -/
def storeDelete (s : Store) (k : Nat) : Store :=
  fun q => if q = k then none else s q

/-- The observable effects of one `Client.inbound(a, p)` call.  `ok` is the
named boolean return of the function (initially `false`; the source sets it only
in the PINGRESP case).  `writes` collects the packets passed to `c.write`,
`delivered` the `(topic, message)` pairs passed to `c.listener`, `pongs`
counts sends on `c.pong`, and `closedConn` records a `c.conn.Close()`
performed inside `inbound` itself. -/
structure InEffects where
  ok : Bool
  store : Store
  writes : List (List Nat)
  delivered : List (List Nat × List Nat)
  pongs : Nat
  closedConn : Bool

/-- `Client.inbound` from `client.go`, translated branch by branch.
Go indexing/slicing panics on malformed input are not modelled: out-of-range
indices read as `0` (`List.getD`) and slices truncate; every input used in a
theorem below is long enough for the two to agree.  Note the source parse of
a PUBLISH: `i := uint(p[0])<<8 | uint(p[1])`, `topic := string(p[2:i])`,
`id := uint(p[i])<<8 | uint(p[i+1])`, `message := p[i+2:]` — the packet id is
read at offset `i`, not `2+i`.  The network `write` is modelled as always
succeeding. -/
def inbound (a : Nat) (p : List Nat) (s : Store) : InEffects :=
  let base : InEffects := ⟨false, s, [], [], 0, false⟩
  let pt := a >>> 4
  if pt = pubReq then
    let i := ((p.getD 0 0) <<< 8) ||| p.getD 1 0
    let topic := (p.take i).drop 2
    let id := ((p.getD i 0) <<< 8) ||| p.getD (i + 1) 0
    let message := p.drop (i + 2)
    let qos := (a >>> 1) % 4
    if qos = AtMostOnce then
      { base with delivered := [(topic, message)] }
    else if qos = AtLeastOnce then
      { base with store := persist s id message, writes := [pubAckBytes id] }
    else if qos = ExactlyOnce then
      { base with store := persist s id message, writes := [pubReceivedBytes id] }
    else
      { base with closedConn := true }
  else if pt = pubReceived ∨ pt = pubRelease ∨ pt = pubComplete ∨ pt = pubAck
      ∨ pt = unsubAck then
    if p.length ≠ 2 then { base with closedConn := true }
    else
      let id := ((p.getD 0 0) <<< 8) ||| p.getD 1 0
      if pt = pubReceived then
        { base with store := persist s id [], writes := [pubCompleteBytes id] }
      else
        { base with store := storeDelete s id }
  else if pt = subAck then
    base
  else if pt = pong then
    { base with pongs := 1, ok := true }
  else
    base

/-- `encoding/binary.Uvarint` (Go standard library), used by `readLoop` to
decode the remaining-length field: little-endian 7-bit groups with the high
bit as continuation.  Returns `(value, n)` with `n > 0` bytes consumed on
success, `(0, 0)` when the buffer is too short, and `(0, -(i+1))` on the
64-bit overflow paths (terminator at the tenth byte greater than 1, or an
eleventh byte reached).  The accumulator is an unbounded `Nat`; the Go
`uint64` wrap-around can only differ on the overflow paths, whose value is
discarded (the caller closes the connection for any `n < 0` or `n > 4`). -/
def uvarintGo : List Nat → Nat → Nat → Nat → Nat × Int
  | [], _, _, _ => (0, 0)
  | b :: rest, i, x, sh =>
    if i = 10 then (0, -11)
    else if b < 128 then
      if i = 9 ∧ 1 < b then (0, -10)
      else (x ||| (b <<< sh), (i : Int) + 1)
    else uvarintGo rest (i + 1) (x ||| ((b % 128) <<< sh)) (sh + 7)

def uvarint (l : List Nat) : Nat × Int := uvarintGo l 0 0 0

/-- Accumulator for one pass of the inner packet-drain loop of `readLoop`. -/
structure DrainOut where
  offset : Nat
  flushN : Nat
  store : Store
  writes : List (List Nat)
  delivered : List (List Nat × List Nat)
  pongs : Nat
  closed : Bool

/-- The inner drain loop of `Client.readLoop` (`for offset+1 < bufN { … }`),
with `buf` holding exactly the `bufN` buffered bytes.  Branches, in source
order: a zero-length `Uvarint` closes the connection if more than 4 bytes
are buffered past `offset` and otherwise breaks to read more; `sizeN`
outside 1..4 closes; a packet larger than `InSizeLimit` records `flushN`
and breaks; the source comparison `if packetSize < bufN-offset` marked "not enough data"
comparison (sic) breaks; otherwise the packet is dispatched to `inbound`
and a false `ok` closes the connection.  `closed = true` means the loop
returned after `c.conn.Close()`.  Fuel only bounds the iteration count;
callers pass `buf.length + 1`, which the per-iteration advance of
`packetSize ≥ 2` can never exhaust. -/
def drainLoop (inLimit : Nat) (buf : List Nat) : Nat → DrainOut → DrainOut
  | 0, d => d
  | fuel + 1, d =>
    if d.offset + 1 < buf.length then
      let sv := uvarint (buf.drop (d.offset + 1))
      let sizeVal := sv.1
      let sizeN := sv.2
      if sizeN = 0 then
        if 4 < buf.length - d.offset then { d with closed := true } else d
      else if sizeN < 0 ∨ 4 < sizeN then { d with closed := true }
      else
        let packetSize := 1 + sizeN.toNat + sizeVal
        if inLimit < packetSize then { d with flushN := packetSize }
        else if packetSize < buf.length - d.offset then d
        else
          let r := inbound (buf.getD d.offset 0)
            ((buf.take (d.offset + packetSize)).drop (d.offset + 1 + sizeN.toNat))
            d.store
          let d1 : DrainOut :=
            { d with store := r.store, writes := d.writes ++ r.writes,
                     delivered := d.delivered ++ r.delivered,
                     pongs := d.pongs + r.pongs }
          if r.ok then
            drainLoop inLimit buf fuel { d1 with offset := d1.offset + packetSize }
          else { d1 with closed := true }
    else d

/-- The per-connection state of `readLoop` between two `conn.Read` calls:
`pending` is `buf[0:bufN]`, plus the oversized-packet flush counter and the
accumulated observable effects. -/
structure RState where
  pending : List Nat
  flushN : Nat
  store : Store
  closed : Bool
  writes : List (List Nat)
  delivered : List (List Nat × List Nat)
  pongs : Nat

def rInit (s : Store) : RState :=
  ⟨[], 0, s, false, [], [], 0⟩

/-- One iteration of `Client.readLoop` upon a successful `conn.Read` that
returned `chunk`: append to the buffer, apply the flush logic

  if flushN > 0 { if flushN >= bufN { flushN -= bufN; bufN = 0 } else { offset = flushN } }

(note the source does not reset `flushN` in the `else` branch), run the
drain loop, then compact the buffer by `offset`.  A closed connection
terminates the loop, so further chunks leave the state unchanged. -/
def readStep (inLimit : Nat) (st : RState) (chunk : List Nat) : RState :=
  if st.closed then st
  else
    let buf := st.pending ++ chunk
    if 0 < st.flushN ∧ buf.length ≤ st.flushN then
      { st with pending := [], flushN := st.flushN - buf.length }
    else
      let offset0 := if 0 < st.flushN then st.flushN else 0
      let d0 : DrainOut :=
        ⟨offset0, st.flushN, st.store, st.writes, st.delivered, st.pongs, false⟩
      let d := drainLoop inLimit buf (buf.length + 1) d0
      { pending := buf.drop d.offset, flushN := d.flushN, store := d.store,
        closed := d.closed, writes := d.writes, delivered := d.delivered,
        pongs := d.pongs }

/-- `readLoop` run over a sequence of successful reads. -/
def readRun (inLimit : Nat) (s : Store) (chunks : List (List Nat)) : RState :=
  chunks.foldl (readStep inLimit) (rInit s)

/-- Modelled from the spec: the `connectReturn` refusal codes and the
sentinel errors they equal (`1 ErrProtocolLevel, 2 ErrClientID,
3 ErrUnavailable, 4 ErrAuthBad, 5 ErrAuth`, §4.8/§7); the type itself is
declared outside `src/` (`client.go` only consumes `connectReturn(buf[3])`
and the `accepted` constant, which is code 0). -/
inductive ConnRefusal where
  | errProtocolLevel : ConnRefusal
  | errClientID : ConnRefusal
  | errUnavailable : ConnRefusal
  | errAuthBad : ConnRefusal
  | errAuth : ConnRefusal
  | other (code : Nat) : ConnRefusal
deriving DecidableEq

def connectReturnErr (b : Nat) : ConnRefusal :=
  match b with
  | 1 => .errProtocolLevel
  | 2 => .errClientID
  | 3 => .errUnavailable
  | 4 => .errAuthBad
  | 5 => .errAuth
  | n => .other n

/-- Outcome of `Client.connect` once the 4-byte CONNACK response is in hand.
Every non-accepted branch of the source performs `c.conn.Close()` and
returns an error; only acceptance clears the deadline and runs
`go c.readLoop()`. -/
inductive ConnectOutcome where
  | acceptedStartReadLoop : ConnectOutcome
  | closedBadType (b : Nat) : ConnectOutcome
  | closedBadLength (b : Nat) : ConnectOutcome
  | closedBadFlags (b : Nat) : ConnectOutcome
  | closedRefused (r : ConnRefusal) : ConnectOutcome
deriving DecidableEq

/-- The CONNACK validation of `Client.connect`: first byte must be
`connAck<<4`, remaining length must be 2, flags byte must not exceed 1
(only bit 0, session-present, may be set), return code must be `accepted`
(0).  The source interleaves these checks with the reads that fill the
4-byte buffer, rejecting as soon as a prefix byte is known bad; the final
outcome over the full 4 bytes is the same. -/
def connAckCheck (b0 b1 b2 b3 : Nat) : ConnectOutcome :=
  if b0 ≠ connAck <<< 4 then .closedBadType b0
  else if b1 ≠ 2 then .closedBadLength b1
  else if 1 < b2 then .closedBadFlags b2
  else if b3 ≠ 0 then .closedRefused (connectReturnErr b3)
  else .acceptedStartReadLoop

/-- Whether `connect` reaches `go c.readLoop()`. -/
def readLoopStarted (o : ConnectOutcome) : Bool :=
  match o with
  | .acceptedStartReadLoop => true
  | _ => false

/-- `connect` consumes exactly the first 4 response bytes (`var buf [4]byte`,
reads repeated until `n > 3`); fewer than 4 available bytes leave the
handshake blocked reading (`none`). -/
def connectHandshake (resp : List Nat) : Option ConnectOutcome :=
  match resp with
  | b0 :: b1 :: b2 :: b3 :: _ => some (connAckCheck b0 b1 b2 b3)
  | _ => none

/-- Result of a `Client.Subscribe` call. -/
inductive SubOutcome where
  /-- `reserve` failed; its error is returned. -/
  | errReserve (e : RegErr) : SubOutcome
  /-- `c.write` failed; the network error is returned. -/
  | errWrite : SubOutcome
  /-- The call reached `panic("TODO: await ack")`. -/
  | panicStub : SubOutcome
deriving DecidableEq

/-- `Client.Subscribe` from `client.go`: reserve an id, encode SUBSCRIBE
(`c.writePacket.subReq`, immaterial to the outcome), write it, and then —
in the source as written — fall into `panic("TODO: await ack")`.  The
network write result is supplied as an oracle `writeOk`. -/
def clientSubscribe (s : PidState) (writeOk : Bool) : SubOutcome × PidState :=
  match reserve s with
  | .error e => (.errReserve e, s)
  | .ok (_, s1) => if writeOk then (.panicStub, s1) else (.errWrite, s1)

/-- The will message (topic, payload, delivery QoS, retain), per §3/§6;
the struct itself is declared outside `src/`. -/
structure Will where
  topic : List Nat
  message : List Nat
  deliver : Nat
  retain : Bool
deriving DecidableEq

/-- Session configuration (`Attributes`), per §3 "Session config" and the
§6 option table; the struct itself is declared outside `src/` (`client.go`
reads `RequestLimit`, `WireTimeout`, `RetryDelay`, `InSizeLimit` and `Will`
from it, and `newConnReq` reads the identity fields).  `will` is a Go
pointer, modelled as an optional address into a heap of `Will` cells. -/
structure Attributes where
  clientID : List Nat
  userName : List Nat
  password : Option (List Nat)
  will : Option Nat
  cleanSession : Bool
  keepAlive : Nat
  wireTimeout : Nat
  retryDelay : Nat
  requestLimit : Int
  inSizeLimit : Nat
deriving DecidableEq

/-- Heap of `Will` cells, addressing the Go pointer graph. -/
def Heap : Type := Nat → Option Will

def heapWrite (h : Heap) (addr : Nat) (w : Will) : Heap :=
  fun q => if q = addr then some w else h q

/-- The client state assembled by `NewClient` that the claims observe. -/
structure ClientState where
  attrs : Attributes
  pids : PidState
deriving DecidableEq

/-- `NewClient(transport, attrs)` from `client.go`: `attrs: *attrs` copies
the struct by value; then, when a will is set, a hidden copy is made
(`w := c.attrs.Will; c.attrs.Will = new(Will); *c.attrs.Will = *w`) at a
fresh address, and the register limit is clamped.  `fresh` models the
address returned by `new(Will)`; a dangling will pointer (`h p = none`)
cannot arise in Go and leaves the model unchanged. -/
def newClient (h : Heap) (a : Attributes) (fresh : Nat) : Heap × ClientState :=
  let c : ClientState := ⟨a, pidsInit (clampLimit a.requestLimit)⟩
  match a.will with
  | none => (h, c)
  | some p =>
    match h p with
    | none => (h, c)
    | some w =>
      (heapWrite h fresh w, { c with attrs := { c.attrs with will := some fresh } })

/-- The session configuration as the client observes it: every `Attributes`
field with the will pointer dereferenced through the heap. -/
structure SessionView where
  clientID : List Nat
  userName : List Nat
  password : Option (List Nat)
  willData : Option Will
  cleanSession : Bool
  keepAlive : Nat
  wireTimeout : Nat
  retryDelay : Nat
  requestLimit : Int
  inSizeLimit : Nat
deriving DecidableEq

def sessionView (h : Heap) (a : Attributes) : SessionView :=
  ⟨a.clientID, a.userName, a.password, a.will.bind h, a.cleanSession,
   a.keepAlive, a.wireTimeout, a.retryDelay, a.requestLimit, a.inSizeLimit⟩

/-- Every identifier a successful `scanLoop` returns lies below 65536 and was
not in `inUse`. -/
lemma scanLoop_some_spec (inUse : Finset Nat) :
    ∀ fuel id j, scanLoop inUse fuel id = some j → j < 65536 ∧ j ∉ inUse := by
  intro fuel
  induction fuel with
  | zero =>
    intro id j h
    unfold scanLoop at h
    by_cases hm : (id + 1) % 65536 ∈ inUse
    · simp [hm] at h
    · simp only [hm, if_neg, if_false, Option.some.injEq] at h
      exact h ▸ ⟨Nat.mod_lt _ (by omega), hm⟩
  | succ f ih =>
    intro id j h
    unfold scanLoop at h
    by_cases hm : (id + 1) % 65536 ∈ inUse
    · simp only [hm, if_true, if_pos] at h
      exact ih _ _ h
    · simp only [hm, if_neg, if_false, Option.some.injEq] at h
      exact h ▸ ⟨Nat.mod_lt _ (by omega), hm⟩

/-- If some probe within the fuel budget hits a free identifier, the scan
succeeds.  Probe `k` of the Go loop lands on `(id + k) % 65536`. -/
lemma scanLoop_isSome (inUse : Finset Nat) :
    ∀ fuel id k, 1 ≤ k → k ≤ fuel + 1 → (id + k) % 65536 ∉ inUse →
      (scanLoop inUse fuel id).isSome := by
  intro fuel
  induction fuel with
  | zero =>
    intro id k h1 h2 hfree
    have hk : k = 1 := by omega
    subst hk
    unfold scanLoop
    simp [hfree]
  | succ f ih =>
    intro id k h1 h2 hfree
    unfold scanLoop
    by_cases hm : (id + 1) % 65536 ∈ inUse
    · have hk : k ≠ 1 := by
        intro e
        subst e
        exact hfree hm
      have heq : ((id + 1) % 65536 + (k - 1)) % 65536 = (id + k) % 65536 := by
        rw [Nat.mod_add_mod]
        congr 1
        omega
      simp only [hm, if_true, if_pos]
      exact ih _ (k - 1) (by omega) (by omega) (heq ▸ hfree)
    · simp [hm]

/-- A set of fewer than 65536 identifiers leaves some 16-bit residue free. -/
lemma free_residue (inUse : Finset Nat) (h : inUse.card < 65536) :
    ∃ m, m < 65536 ∧ m ∉ inUse := by
  by_contra hc
  push_neg at hc
  have hsub : Finset.range 65536 ⊆ inUse := by
    intro m hm
    exact hc m (Finset.mem_range.mp hm)
  have hcard := Finset.card_le_card hsub
  rw [Finset.card_range] at hcard
  omega

/-- Every 16-bit residue is hit by one of the first 65536 probes of the
cyclic scan. -/
lemma exists_probe (id m : Nat) (hm : m < 65536) :
    ∃ k, 1 ≤ k ∧ k ≤ 65536 ∧ (id + k) % 65536 = m := by
  refine ⟨if id % 65536 < m then m - id % 65536 else m + 65536 - id % 65536,
    ?_, ?_, ?_⟩ <;> split <;> omega

/-- Claim C9: with the limit established by `NewClient` (clamped into
1..65536) and `len(inUse) < limit`, the cyclic scan of `reserve` terminates
within one full 65536-probe cycle, so `reserve` is total: it returns an
identifier here, and by definition returns the request-limit error whenever
`len(inUse) >= limit`. -/
theorem reserve_terminates (l : Int) (s : PidState)
    (hl : s.limit = clampLimit l) (hc : s.inUse.card < s.limit) :
    1 ≤ s.limit ∧ s.limit ≤ 65536 ∧ ∃ id s1, reserve s = Except.ok (id, s1) := by
  have hb : 1 ≤ clampLimit l ∧ clampLimit l ≤ 65536 := by
    unfold clampLimit
    split <;> omega
  obtain ⟨hb1, hb2⟩ := hb
  refine ⟨by omega, by omega, ?_⟩
  obtain ⟨m, hm, hfree⟩ := free_residue s.inUse (by omega)
  obtain ⟨k, hk1, hk2, hkeq⟩ := exists_probe s.last m hm
  have hsome := scanLoop_isSome s.inUse 65535 s.last k hk1 (by omega)
    (by rw [hkeq]; exact hfree)
  obtain ⟨j, hj⟩ := Option.isSome_iff_exists.mp hsome
  refine ⟨j, ⟨j, insert j s.inUse, s.limit⟩, ?_⟩
  unfold reserve
  rw [if_neg (by omega), hj]

/-- Witness for C9: a fresh register with the default clamped limit 65536
(`clampLimit 0`) reserves successfully. -/
theorem reserve_terminates_w :
    1 ≤ (⟨0, (∅ : Finset Nat), 65536⟩ : PidState).limit ∧
    (⟨0, (∅ : Finset Nat), 65536⟩ : PidState).limit ≤ 65536 ∧
    ∃ id s1, reserve ⟨0, (∅ : Finset Nat), 65536⟩ = Except.ok (id, s1) :=
  reserve_terminates 0 ⟨0, (∅ : Finset Nat), 65536⟩ (by decide) (by decide)

/-- Claim C4, amended: every identifier a successful `reserve` returns lies
in the 16-bit space 0..65535 (the source masks with `& 0xffff` and never
skips zero) and was absent from `inUse` at the time of the call; it is in
use afterwards.  The range 1..65535 asserted by the claim is refuted by
`reserve_zero_from_reachable_state` below. -/
theorem reserve_ok_in_space (s : PidState) (id : Nat) (s1 : PidState)
    (h : reserve s = Except.ok (id, s1)) :
    id ≤ 65535 ∧ id ∉ s.inUse ∧ id ∈ s1.inUse := by
  unfold reserve at h
  by_cases hlim : s.limit ≤ s.inUse.card
  · rw [if_pos hlim] at h
    exact absurd h (by simp)
  · rw [if_neg hlim] at h
    cases heq : scanLoop s.inUse 65535 s.last with
    | none =>
      rw [heq] at h
      exact absurd h (by simp)
    | some j =>
      rw [heq] at h
      obtain ⟨hj1, hj2⟩ := scanLoop_some_spec s.inUse 65535 s.last j heq
      simp only [Except.ok.injEq, Prod.mk.injEq] at h
      obtain ⟨rfl, rfl⟩ := h
      exact ⟨by omega, hj2, Finset.mem_insert_self _ _⟩

/-- Witness for the amended C4: the first reservation of a fresh register
returns 1, which is below 65536, was unused, and is in use afterwards. -/
theorem reserve_ok_in_space_w :
    (1 : Nat) ≤ 65535 ∧ (1 : Nat) ∉ (∅ : Finset Nat) ∧
    (1 : Nat) ∈ insert 1 (∅ : Finset Nat) :=
  reserve_ok_in_space ⟨0, (∅ : Finset Nat), 65536⟩ 1
    ⟨1, insert 1 (∅ : Finset Nat), 65536⟩ rfl

/-- Every state with an empty `inUse`, cursor `n ≤ 65535` and limit 1 is
reachable from the `NewClient` initialisation with `RequestLimit = 1`, by
`n` successive reserve/free pairs (each reserve returns `n+1` and advances
the cursor; each free empties `inUse` again). -/
lemma reach_empty : ∀ n, n ≤ 65535 → Reach ⟨n, (∅ : Finset Nat), 1⟩ := by
  intro n
  induction n with
  | zero =>
    intro _
    have h := Reach.init 1
    rw [show clampLimit 1 = 1 from by decide] at h
    exact h
  | succ n ih =>
    intro hn
    have hr := ih (by omega)
    have hscan : scanLoop (∅ : Finset Nat) 65535 n = some ((n + 1) % 65536) := by
      unfold scanLoop
      simp
    have hres : reserve ⟨n, (∅ : Finset Nat), 1⟩
        = Except.ok ((n + 1) % 65536,
            ⟨(n + 1) % 65536, insert ((n + 1) % 65536) (∅ : Finset Nat), 1⟩) := by
      unfold reserve
      rw [if_neg (by simp), hscan]
    have h1 := Reach.stepReserve hr hres
    have h2 := Reach.stepFree ((n + 1) % 65536) h1
    have hmod : (n + 1) % 65536 = n + 1 := Nat.mod_eq_of_lt (by omega)
    have hst : pidFree ((n + 1) % 65536)
        ⟨(n + 1) % 65536, insert ((n + 1) % 65536) (∅ : Finset Nat), 1⟩
        = ⟨n + 1, (∅ : Finset Nat), 1⟩ := by
      unfold pidFree
      rw [hmod]
      simp [Finset.erase_insert (Finset.not_mem_empty _)]
    rw [hst] at h2
    exact h2

/-- Claim C4, counterexample: the register state with cursor 65535, empty
`inUse` and limit 1 is reachable by reserve/free sequences, yet `reserve`
there returns identifier 0 — `(65535 + 1) & 0xffff` — which is outside the
claimed range 1..65535. -/
theorem reserve_zero_from_reachable_state :
    Reach ⟨65535, (∅ : Finset Nat), 1⟩ ∧
    reserve ⟨65535, (∅ : Finset Nat), 1⟩
      = Except.ok (0, ⟨0, insert 0 (∅ : Finset Nat), 1⟩) ∧
    ¬(1 ≤ (0 : Nat)) :=
  ⟨reach_empty 65535 (by omega), rfl, by omega⟩

/-- Claim C1: evaluation of the inbound dispatcher at a QoS-1 PUBLISH
(topic `t/b`, id 1, message `x`, so `p = [0,3,116,47,98,0,1,120]`) and at
the same packet with QoS 2 while key 12130 is already persisted.  Contrary
to the claim, no delivery to the application happens in either case
(`delivered = []`; the source invokes the listener only for QoS 0), the
QoS-2 path performs no duplicate check (the pre-existing record is simply
overwritten and PUBREC is still emitted), the acknowledged id is 12130
rather than 1 (the parse reads the id at offset `i` instead of `2+i`), and
`ok = false` makes `readLoop` close the connection afterwards. -/
theorem inbound_qos_publish_no_delivery :
    (inbound 0x32 [0, 3, 116, 47, 98, 0, 1, 120] emptyStore).delivered = [] ∧
    (inbound 0x32 [0, 3, 116, 47, 98, 0, 1, 120] emptyStore).writes
      = [[64, 2, 47, 98]] ∧
    (inbound 0x32 [0, 3, 116, 47, 98, 0, 1, 120] emptyStore).store 12130
      = some [0, 1, 120] ∧
    (inbound 0x32 [0, 3, 116, 47, 98, 0, 1, 120] emptyStore).ok = false ∧
    (inbound 0x34 [0, 3, 116, 47, 98, 0, 1, 120]
        (persist emptyStore 12130 [9])).delivered = [] ∧
    (inbound 0x34 [0, 3, 116, 47, 98, 0, 1, 120]
        (persist emptyStore 12130 [9])).writes = [[80, 2, 47, 98]] ∧
    (inbound 0x34 [0, 3, 116, 47, 98, 0, 1, 120]
        (persist emptyStore 12130 [9])).store 12130 = some [0, 1, 120] :=
  ⟨rfl, rfl, rfl, rfl, rfl, rfl, rfl⟩

/-- Claim C2: evaluation of the inbound dispatcher at PUBREC(7) and at
PUBCOMP(7) with the PUBREL record stored under `LOCAL|7`.  Contrary to the
claim, PUBREC makes the client persist `(7, nil)` under the remote key and
reply with PUBCOMP — not persist PUBREL bytes under `LOCAL|7` and reply
PUBREL — and PUBCOMP deletes key 7, leaving `LOCAL|7` untouched; no `free`
call and no completion exist on these paths. -/
theorem inbound_pubrec_replies_pubcomp :
    (inbound 0x50 [0, 7] emptyStore).writes = [pubCompleteBytes 7] ∧
    (inbound 0x50 [0, 7] emptyStore).store 7 = some [] ∧
    (inbound 0x50 [0, 7] emptyStore).store (localPacketIDFlag ||| 7) = none ∧
    (inbound 0x70 [0, 7]
        (persist emptyStore (localPacketIDFlag ||| 7) (pubReleaseBytes 7))).store
      (localPacketIDFlag ||| 7) = some (pubReleaseBytes 7) ∧
    (inbound 0x70 [0, 7]
        (persist emptyStore (localPacketIDFlag ||| 7) (pubReleaseBytes 7))).store 7
      = none ∧
    (inbound 0x70 [0, 7]
        (persist emptyStore (localPacketIDFlag ||| 7) (pubReleaseBytes 7))).writes
      = [] :=
  ⟨rfl, rfl, rfl, rfl, rfl, rfl⟩

/-- Claim C3: the encoder output for a QoS-0 publish of `hello` to `t/a`.
The claimed wire bytes `0x30 0x09 0x00 0x03 t / a h e l l o` are not
produced: the `append(p.buf[:0], byte(size))` reset in `newPub` discards
the fixed-header byte, so the packet starts with the remaining-length byte
`0x0A` (10, which is also the correct remaining length for this payload —
the 0x09 of the claim miscounts) and the type header `0x30` is lost; with
the header byte absent, no decode can return the original `(type, payload)`
pair. -/
theorem newPub_loses_type_header :
    newPub 0 [116, 47, 97] [104, 101, 108, 108, 111] AtMostOnce
      = [10, 0, 3, 116, 47, 97, 104, 101, 108, 108, 111] := by
  simp [newPub, sizeLoop, addLenPrefixed, AtMostOnce]

/-- Claim C5: a single read containing a well-formed PUBACK(5) — an
acknowledgement whose id is not inflight (nothing is) — makes `readLoop`
close the connection, because `inbound` leaves its `ok` return false for
every packet type except PINGRESP; the claim asserts the packet is ignored
and the connection stays open. -/
theorem readLoop_closes_on_puback :
    (readRun 1000 emptyStore [[64, 2, 0, 5]]).closed = true ∧
    (readRun 1000 emptyStore [[64, 2, 0, 5]]).delivered = [] :=
  ⟨rfl, rfl⟩

/-- Claim C6: with `InSizeLimit = 16`, an oversized PUBLISH header
`[0x30, 100]` (packet size 102) sets `flushN = 102`; the second read brings
the 100 body bytes plus a PINGRESP, which is still decoded (`pongs = 1`),
but because the `else` branch of the flush logic fails to clear `flushN`,
the third read — another PINGRESP — is swallowed by the stale counter
(`pongs` stays 1 and `flushN = 100` remains pending) instead of being
decoded: the stream is no longer synchronized after the oversized packet,
contrary to the claim. -/
theorem readLoop_flush_counter_not_cleared :
    (readRun 16 emptyStore
        [[48, 100], List.replicate 100 0 ++ [208, 0], [208, 0]]).pongs = 1 ∧
    (readRun 16 emptyStore
        [[48, 100], List.replicate 100 0 ++ [208, 0], [208, 0]]).flushN = 100 ∧
    (readRun 16 emptyStore
        [[48, 100], List.replicate 100 0 ++ [208, 0], [208, 0]]).closed = false := by
  refine ⟨?_, ?_, ?_⟩ <;> rfl

/-- Claim C7: the connect handshake consumes exactly the first 4 response
bytes; it accepts (and only then starts the reader loop) precisely when the
first byte is `connAck<<4`, the remaining-length byte is 2, the flags byte
is at most 1 and the return code is 0; return codes 1 through 5 yield the
refusal errors ErrProtocolLevel, ErrClientID, ErrUnavailable, ErrAuthBad
and ErrAuth, with the connection closed on every rejection path. -/
theorem connect_handshake_validation :
    ∀ b0 b1 b2 b3 : Nat, ∀ rest : List Nat,
      (connAckCheck b0 b1 b2 b3 = ConnectOutcome.acceptedStartReadLoop ↔
        (b0 = 32 ∧ b1 = 2 ∧ b2 ≤ 1 ∧ b3 = 0)) ∧
      (readLoopStarted (connAckCheck b0 b1 b2 b3) = true ↔
        connAckCheck b0 b1 b2 b3 = ConnectOutcome.acceptedStartReadLoop) ∧
      connectHandshake (b0 :: b1 :: b2 :: b3 :: rest)
        = some (connAckCheck b0 b1 b2 b3) ∧
      connAckCheck 32 2 0 1
        = ConnectOutcome.closedRefused ConnRefusal.errProtocolLevel ∧
      connAckCheck 32 2 0 2 = ConnectOutcome.closedRefused ConnRefusal.errClientID ∧
      connAckCheck 32 2 0 3
        = ConnectOutcome.closedRefused ConnRefusal.errUnavailable ∧
      connAckCheck 32 2 0 4 = ConnectOutcome.closedRefused ConnRefusal.errAuthBad ∧
      connAckCheck 32 2 0 5 = ConnectOutcome.closedRefused ConnRefusal.errAuth ∧
      connAckCheck 32 2 1 5 = ConnectOutcome.closedRefused ConnRefusal.errAuth := by
  intro b0 b1 b2 b3 rest
  refine ⟨?_, ?_, rfl, by decide, by decide, by decide, by decide, by decide,
    by decide⟩
  · unfold connAckCheck connAck
    split_ifs with h1 h2 h3 h4 <;> simp_all
  · unfold connAckCheck connAck readLoopStarted
    split_ifs <;> simp

/-- Claim C8: whenever `reserve` succeeds and the SUBSCRIBE write succeeds,
`Client.Subscribe` reaches the `panic("TODO: await ack")` stub — it never
waits for the SUBACK and never returns normally, contrary to the claim. -/
theorem subscribe_panics_after_successful_write (s : PidState) (id : Nat)
    (s1 : PidState) (h : reserve s = Except.ok (id, s1)) :
    clientSubscribe s true = (SubOutcome.panicStub, s1) := by
  simp [clientSubscribe, h]

/-- Witness for C8: a Subscribe on a fresh client with a successful write
ends in the panic stub. -/
theorem subscribe_panics_after_successful_write_w :
    clientSubscribe ⟨0, (∅ : Finset Nat), 65536⟩ true
      = (SubOutcome.panicStub, ⟨1, insert 1 (∅ : Finset Nat), 65536⟩) :=
  subscribe_panics_after_successful_write ⟨0, (∅ : Finset Nat), 65536⟩ 1
    ⟨1, insert 1 (∅ : Finset Nat), 65536⟩ rfl

/-- Claim C10: `NewClient` copies the `Attributes` value and makes a hidden
copy of the will at a fresh cell, so the will pointer of the client aliases
neither the caller cell (`fresh ≠ p`) nor anything the caller can reach;
overwriting the caller will cell afterwards leaves the session
configuration the client observes unchanged, and that configuration equals
the originally passed attributes with the will dereferenced. -/
theorem newClient_copies_attributes (h : Heap) (a : Attributes) (fresh p : Nat)
    (w w1 : Will) (hfresh : h fresh = none) (hwill : a.will = some p)
    (hp : h p = some w) :
    fresh ≠ p ∧
    (newClient h a fresh).2.attrs.will = some fresh ∧
    sessionView (heapWrite (newClient h a fresh).1 p w1)
        (newClient h a fresh).2.attrs
      = sessionView (newClient h a fresh).1 (newClient h a fresh).2.attrs ∧
    sessionView (newClient h a fresh).1 (newClient h a fresh).2.attrs
      = ⟨a.clientID, a.userName, a.password, some w, a.cleanSession, a.keepAlive,
         a.wireTimeout, a.retryDelay, a.requestLimit, a.inSizeLimit⟩ := by
  have hne : fresh ≠ p := by
    intro e
    rw [e, hp] at hfresh
    exact Option.noConfusion hfresh
  have hnc : newClient h a fresh
      = (heapWrite h fresh w,
         ⟨{ a with will := some fresh }, pidsInit (clampLimit a.requestLimit)⟩) := by
    simp only [newClient, hwill]
    rw [hp]
  refine ⟨hne, ?_, ?_, ?_⟩
  · rw [hnc]
  · rw [hnc]
    unfold sessionView
    simp [heapWrite, hne]
  · rw [hnc]
    unfold sessionView
    simp [heapWrite]

def c10Will : Will := ⟨[116], [109], 1, false⟩

def c10Will2 : Will := ⟨[], [], 0, true⟩

def c10Heap : Heap := fun q => if q = 0 then some c10Will else none

def c10Attrs : Attributes := ⟨[99], [], none, some 0, true, 60, 4, 2, 10, 16⟩

/-- Witness for C10: a concrete heap with the caller will at address 0 and
the fresh cell at address 1. -/
theorem newClient_copies_attributes_w :
    (1 : Nat) ≠ 0 ∧
    (newClient c10Heap c10Attrs 1).2.attrs.will = some 1 ∧
    sessionView (heapWrite (newClient c10Heap c10Attrs 1).1 0 c10Will2)
        (newClient c10Heap c10Attrs 1).2.attrs
      = sessionView (newClient c10Heap c10Attrs 1).1
        (newClient c10Heap c10Attrs 1).2.attrs ∧
    sessionView (newClient c10Heap c10Attrs 1).1
        (newClient c10Heap c10Attrs 1).2.attrs
      = ⟨c10Attrs.clientID, c10Attrs.userName, c10Attrs.password, some c10Will,
         c10Attrs.cleanSession, c10Attrs.keepAlive, c10Attrs.wireTimeout,
         c10Attrs.retryDelay, c10Attrs.requestLimit, c10Attrs.inSizeLimit⟩ :=
  newClient_copies_attributes c10Heap c10Attrs 1 0 c10Will c10Will2 rfl rfl rfl
